import Mathlib

/-!
Shallow embedding of the CHIP-8 virtual machine from `src/chip8.rs`
(crate `c8.rs`).

Conventions of the embedding:
* Machine integers (`u8`, `u16`) are represented as `Nat`.  Rust
  release-mode arithmetic wraps on overflow, so every arithmetic
  operation whose Rust counterpart is performed at width `w` is
  followed by `% 2^w`; plain moves of already-typed values are
  translated without a mask, exactly as Rust moves bytes without
  masking.  Truncating casts (`as u8`) become `% 256`.
* Bit-field extractions on the 16-bit opcode are translated by the
  standard correspondences, valid for every value a `u16` can hold:
  `op & 0x0F00 >> 8 = op / 256 % 16`, `op & 0x00F0 >> 4 = op / 16 % 16`,
  `op & 0x000F = op % 16`, `op & 0x00FF = op % 256`,
  `op & 0x0FFF = op % 4096`, and matching `op & 0xF000` against
  `0x0000 .. 0xF000` is matching `op / 4096` against `0 .. 15`
  (the fetched opcode is always below `2^16`).
* Fixed-size Rust arrays become functions `Nat → Nat`; an access whose
  index is statically in bounds (a register index below 16 obtained
  from a nibble, a screen coordinate already reduced `% 64`/`% 32`)
  is a plain application, while a data-dependent access goes through
  `readArr`/`writeArr`, which return `Except Crash _` and crash
  exactly where the Rust program would abort on an out-of-range index
  (index-out-of-bounds aborts in every Rust build mode).
* `rand::thread_rng().gen::<u8>()` (opcode CXNN) is modelled by an
  explicit `rand` argument threaded into each cycle.
* Debug printing (`p!`, `eprintln!`) has no machine-visible effect and
  is dropped.
-/

/-- Crash is the outcome of a Rust runtime abort: an array access with
an out-of-range index. -/
inductive Crash where
  | indexOutOfBounds : Crash
deriving DecidableEq, Repr

/-- Point update of an array modelled as a function. -/
def update (f : Nat → Nat) (i v : Nat) : Nat → Nat :=
  fun j => if j = i then v else f j

/-- Point update of a two-dimensional array modelled as a curried function. -/
def update2 (g : Nat → Nat → Nat) (y x v : Nat) : Nat → Nat → Nat :=
  fun r c => if r = y ∧ c = x then v else g r c

/-- Bounds-checked read from an array of length `len`; an out-of-range
index crashes, as the corresponding Rust indexing does. -/
def readArr (len : Nat) (a : Nat → Nat) (i : Nat) : Except Crash Nat :=
  if i < len then .ok (a i) else .error .indexOutOfBounds

/-- Bounds-checked write to an array of length `len`. -/
def writeArr (len : Nat) (a : Nat → Nat) (i v : Nat) :
    Except Crash (Nat → Nat) :=
  if i < len then .ok (update a i v) else .error .indexOutOfBounds

/-- The fontset for the CHIP-8 (`FONTSET` in `chip8.rs`): 16 glyphs of
5 bytes each, 80 bytes in total. -/
def FONTSET : List Nat :=
  [0xF0, 0x90, 0x90, 0x90, 0xF0,
   0x20, 0x60, 0x20, 0x20, 0x70,
   0xF0, 0x10, 0xF0, 0x80, 0xF0,
   0xF0, 0x10, 0xF0, 0x10, 0xF0,
   0x90, 0x90, 0xF0, 0x10, 0x10,
   0xF0, 0x80, 0xF0, 0x10, 0xF0,
   0xF0, 0x80, 0xF0, 0x90, 0xF0,
   0xF0, 0x10, 0x20, 0x40, 0x40,
   0xF0, 0x90, 0xF0, 0x90, 0xF0,
   0xF0, 0x90, 0xF0, 0x10, 0xF0,
   0xF0, 0x90, 0xF0, 0x90, 0x90,
   0xE0, 0x90, 0xE0, 0x90, 0xE0,
   0xF0, 0x80, 0x80, 0x80, 0xF0,
   0xE0, 0x90, 0x90, 0x90, 0xE0,
   0xF0, 0x80, 0xF0, 0x80, 0xF0,
   0xF0, 0x80, 0xF0, 0x80, 0x80]

/-- SCREEN_WIDTH from `chip8.rs`. -/
def SCREEN_WIDTH : Nat := 64
/-- SCREEN_HEIGHT from `chip8.rs`. -/
def SCREEN_HEIGHT : Nat := 32

/-- State of the `VirtualMachine` struct of `chip8.rs`.  Field names
follow the source; fixed-size arrays are functions. -/
structure VirtualMachine where
  opcode : Nat
  stack : Nat → Nat
  sp : Nat
  memory : Nat → Nat
  V : Nat → Nat
  I : Nat
  pc : Nat
  graphics : Nat → Nat → Nat
  draw_to_screen : Bool
  keypad : Nat → Nat
  delay_timer : Nat
  sound_timer : Nat

/-- Loading of `FONTSET` into the low 80 bytes of memory, as done by the
loop in `VirtualMachine::new`.  `loadFont k m` performs the first `k`
iterations. -/
def loadFont : Nat → (Nat → Nat) → (Nat → Nat)
  | 0, m => m
  | k + 1, m => update (loadFont k m) k (FONTSET.getD k 0)

/-- `VirtualMachine::new`: everything zeroed, `pc = 0x200`, fontset
loaded into memory bytes `[0, 80)`. -/
def VirtualMachine.new : VirtualMachine :=
  { opcode := 0
    I := 0
    sp := 0
    pc := 0x200
    stack := fun _ => 0
    keypad := fun _ => 0
    memory := loadFont 80 (fun _ => 0)
    graphics := fun _ _ => 0
    V := fun _ => 0
    draw_to_screen := false
    sound_timer := 0
    delay_timer := 0 }

/-- `Cartridge` of `rom.rs`: a data array of `MAX_ROM_SIZE = 3584`
bytes together with the number of meaningful bytes. -/
structure Cartridge where
  data : Nat → Nat
  size : Nat

/-- The loop of `VirtualMachine::load_rom`: `loadRomLoop data k m`
performs the first `k` iterations of
`for i in 0..size { memory[(i+512)] = data[i] }`.  `data` has length
3584 and `i + 512` is a `u16` addition. -/
def loadRomLoop (data : Nat → Nat) : Nat → (Nat → Nat) → Except Crash (Nat → Nat)
  | 0, m => .ok m
  | k + 1, m =>
    match loadRomLoop data k m with
    | .error e => .error e
    | .ok m1 =>
      match readArr 3584 data k with
      | .error e => .error e
      | .ok b => writeArr 4096 m1 ((k + 512) % 65536) b

/-- `VirtualMachine::load_rom`. -/
def load_rom (s : VirtualMachine) (cart : Cartridge) : Except Crash VirtualMachine :=
  match loadRomLoop cart.data cart.size s.memory with
  | .error e => .error e
  | .ok m => .ok { s with memory := m }

/-- `VirtualMachine::fetch_opcode`: `(memory[pc] << 8) | memory[pc+1]`;
the two cells hold bytes, so shift-or is `* 256 +`. -/
def fetch_opcode (s : VirtualMachine) : Except Crash Nat :=
  match readArr 4096 s.memory s.pc with
  | .error e => .error e
  | .ok b1 =>
    match readArr 4096 s.memory (s.pc + 1) with
    | .error e => .error e
    | .ok b2 => .ok (b1 * 256 + b2)

/-- `ComparisonType` from `chip8.rs`. -/
inductive ComparisonType where
  | Equality
  | Inequality
deriving DecidableEq

/-- `BinOp` from `chip8.rs`. -/
inductive BinOp where
  | Or
  | And
  | Xor
  | Attrib

/-- The X nibble of the current opcode, `(opcode & 0x0F00) >> 8`
(first component of `VirtualMachine::vx`). -/
def xNibble (s : VirtualMachine) : Nat := s.opcode / 256 % 16

/-- The Y nibble of the current opcode, `(opcode & 0x00F0) >> 4`
(first component of `VirtualMachine::vy`). -/
def yNibble (s : VirtualMachine) : Nat := s.opcode / 16 % 16

/-- `VirtualMachine::vx_vy_bin_op`: performs a binary operation between
VX and VY, stores the result in VX and advances the program counter. -/
def vx_vy_bin_op (s : VirtualMachine) (binop : BinOp) : VirtualMachine :=
  let X := xNibble s
  let VY := s.V (yNibble s)
  let v :=
    match binop with
    | .Attrib => VY
    | .Xor => Nat.xor (s.V X) VY
    | .And => Nat.land (s.V X) VY
    | .Or => Nat.lor (s.V X) VY
  { s with V := update s.V X v, pc := (s.pc + 2) % 65536 }

/-- `VirtualMachine::compare_vx_and_nn`: skip logic of opcodes 3XNN and
4XNN. -/
def compare_vx_and_nn (s : VirtualMachine) (cmptype : ComparisonType) : VirtualMachine :=
  let VX := s.V (xNibble s)
  let NN := s.opcode % 256
  if cmptype = ComparisonType.Equality then
    if VX = NN then { s with pc := (s.pc + 4) % 65536 }
    else { s with pc := (s.pc + 2) % 65536 }
  else
    if VX ≠ NN then { s with pc := (s.pc + 4) % 65536 }
    else { s with pc := (s.pc + 2) % 65536 }

/-- Innermost body of the sprite loop in `VirtualMachine::draw_sprite`
for row offset `byte` and bit position `bit`.  Note that the source
re-indexes the register file with the *values* `xv = VX` and `yv = VY`
(`self.V[x as usize]` where `x` already holds the contents of VX), so
the pixel base coordinates are `V[VX]` and `V[VY]`, and a register
value of 16 or more crashes. -/
def drawBit (xv byte bit : Nat) (yy : Nat) (s : VirtualMachine) :
    Except Crash VirtualMachine :=
  match readArr 16 s.V xv with
  | .error e => .error e
  | .ok vx =>
    let x := (vx + bit) % SCREEN_WIDTH
    match readArr 4096 s.memory (s.I + byte) with
    | .error e => .error e
    | .ok row =>
      let color := row / 2 ^ (7 - bit) % 2
      let old := s.graphics yy x
      let V1 := update s.V 15 (Nat.lor (s.V 15) (Nat.land color old))
      .ok { s with V := V1, graphics := update2 s.graphics yy x (Nat.xor old color) }

/-- The inner `for bit in 0..8` loop of `draw_sprite`, first `b`
iterations. -/
def drawBits (xv byte : Nat) (yy : Nat) : Nat → VirtualMachine → Except Crash VirtualMachine
  | 0, s => .ok s
  | b + 1, s =>
    match drawBits xv byte yy b s with
    | .error e => .error e
    | .ok s1 => drawBit xv byte b yy s1

/-- One iteration of the outer `for byte in 0..n` loop of
`draw_sprite`: computes the wrapped row coordinate
`(V[yv] + byte) % 32` and runs the 8-bit inner loop. -/
def drawRow (xv yv byte : Nat) (s : VirtualMachine) : Except Crash VirtualMachine :=
  match readArr 16 s.V yv with
  | .error e => .error e
  | .ok vy => drawBits xv byte ((vy + byte) % SCREEN_HEIGHT) 8 s

/-- The outer loop of `draw_sprite`, first `k` iterations. -/
def drawRows (xv yv : Nat) : Nat → VirtualMachine → Except Crash VirtualMachine
  | 0, s => .ok s
  | k + 1, s =>
    match drawRows xv yv k s with
    | .error e => .error e
    | .ok s1 => drawRow xv yv k s1

/-- `VirtualMachine::draw_sprite`: reads `x := VX`, `y := VY`,
`n := opcode & 0xF`, clears VF, runs the row loop and marks the screen
dirty. -/
def draw_sprite (s : VirtualMachine) : Except Crash VirtualMachine :=
  let xv := s.V (xNibble s)
  let yv := s.V (yNibble s)
  let n := s.opcode % 16
  let s0 := { s with V := update s.V 15 0 }
  match drawRows xv yv n s0 with
  | .error e => .error e
  | .ok s1 => .ok { s1 with draw_to_screen := true }

/-- The `for i in 0..16` scan of opcode FX0A: first `k` iterations over
the register file paired with the `key_was_pressed` flag.  Each pressed
key overwrites `V[X]`, so a later pressed key wins. -/
def fx0aScan (kp : Nat → Nat) (X : Nat) : Nat → (Nat → Nat) × Bool → (Nat → Nat) × Bool
  | 0, acc => acc
  | k + 1, acc =>
    let (V1, p1) := fx0aScan kp X k acc
    if kp k ≠ 0 then (update V1 X k, true) else (V1, p1)

/-- The loop of opcode FX55, first `k` iterations of
`memory[(I_u8 + i) as usize] = V[i]` where `I_u8 = I as u8` and the
index addition is a wrapping `u8` addition. -/
def fx55Loop (V : Nat → Nat) (Iu8 : Nat) : Nat → (Nat → Nat) → Except Crash (Nat → Nat)
  | 0, m => .ok m
  | k + 1, m =>
    match fx55Loop V Iu8 k m with
    | .error e => .error e
    | .ok m1 => writeArr 4096 m1 ((Iu8 + k) % 256) (V k)

/-- The loop of opcode FX65, first `k` iterations of
`V[i] = memory[(I_u8 + i) as usize]`. -/
def fx65Loop (m : Nat → Nat) (Iu8 : Nat) : Nat → (Nat → Nat) → Except Crash (Nat → Nat)
  | 0, V => .ok V
  | k + 1, V =>
    match fx65Loop m Iu8 k V with
    | .error e => .error e
    | .ok V1 =>
      match readArr 4096 m ((Iu8 + k) % 256) with
      | .error e => .error e
      | .ok b => .ok (update V1 k b)

/-- The timer block at the end of `run_cycle`: each timer is
decremented when positive. -/
def tickTimers (s : VirtualMachine) : VirtualMachine :=
  let d := if s.delay_timer > 0 then s.delay_timer - 1 else s.delay_timer
  let snd := if s.sound_timer > 0 then s.sound_timer - 1 else s.sound_timer
  { s with delay_timer := d, sound_timer := snd }

/-- The `match self.opcode & 0xF000` dispatch of `run_cycle`, with the
opcode already fetched into `s.opcode`.  `rand` is the byte produced by
`rng.gen::<u8>()` for opcode CXNN.  Arms matching no rule only print a
diagnostic in the source and leave the state untouched. -/
def execOpcode (rand : Nat) (s : VirtualMachine) : Except Crash VirtualMachine :=
  let op := s.opcode
  let c := op / 4096
  if c = 0 then
    -- 0-class: dispatch on the low nibble only
    let l := op % 16
    if l = 0 then
      -- 00E0: clear screen (`clear_screen` inlined), pc += 2
      .ok { s with graphics := fun _ _ => 0, draw_to_screen := true,
                   pc := (s.pc + 2) % 65536 }
    else if l = 0xE then
      -- 00EE: return from subroutine; `sp -= 1` is wrapping u16
      let sp1 := (s.sp + 65535) % 65536
      match readArr 16 s.stack sp1 with
      | .error e => .error e
      | .ok v => .ok { s with sp := sp1, pc := (v + 2) % 65536 }
    else .ok s
  else if c = 1 then
    -- 1NNN: jump
    .ok { s with pc := op % 4096 }
  else if c = 2 then
    -- 2NNN: call; the stack holds bytes, so `pc as u8` truncates
    match writeArr 16 s.stack s.sp (s.pc % 256) with
    | .error e => .error e
    | .ok st => .ok { s with stack := st, sp := (s.sp + 1) % 65536, pc := op % 4096 }
  else if c = 3 then
    .ok (compare_vx_and_nn s ComparisonType.Equality)
  else if c = 4 then
    .ok (compare_vx_and_nn s ComparisonType.Inequality)
  else if c = 5 then
    -- 5XY0: skip if VX == VY
    let VX := s.V (xNibble s)
    let VY := s.V (yNibble s)
    if VX = VY then .ok { s with pc := (s.pc + 4) % 65536 }
    else .ok { s with pc := (s.pc + 2) % 65536 }
  else if c = 6 then
    -- 6XNN: VX := NN
    .ok { s with V := update s.V (xNibble s) (op % 256), pc := (s.pc + 2) % 65536 }
  else if c = 7 then
    -- 7XNN: VX += NN (wrapping u8 add; the source's conditional
    -- `NN % 256` is kept although NN is already below 256)
    let X := xNibble s
    let VX := s.V X
    let NN0 := op % 256
    let NN := if NN0 + VX > 255 then NN0 % 256 else NN0
    .ok { s with V := update s.V X ((VX + NN) % 256), pc := (s.pc + 2) % 65536 }
  else if c = 8 then
    let l := op % 16
    if l = 0 then .ok (vx_vy_bin_op s BinOp.Attrib)
    else if l = 1 then .ok (vx_vy_bin_op s BinOp.Or)
    else if l = 2 then .ok (vx_vy_bin_op s BinOp.And)
    else if l = 3 then .ok (vx_vy_bin_op s BinOp.Xor)
    else if l = 4 then
      -- 8XY4: `let sum = (VX + VY) as u16` — the addition happens at
      -- u8 width and wraps before the cast, so `sum` is below 256
      let X := xNibble s
      let VX := s.V X
      let VY := s.V (yNibble s)
      let sum := (VX + VY) % 256
      let V1 := update s.V 15 (if sum > 0xFF then 1 else 0)
      .ok { s with V := update V1 X (sum % 256), pc := (s.pc + 2) % 65536 }
    else if l = 5 then
      -- 8XY5: VX -= VY (wrapping u8 subtraction), VF is the borrow flag
      let X := xNibble s
      let VX := s.V X
      let VY := s.V (yNibble s)
      let V1 := update s.V 15 (if VY > VX then 1 else 0)
      .ok { s with V := update V1 X ((V1 X + 256 - VY % 256) % 256),
                   pc := (s.pc + 2) % 65536 }
    else if l = 6 then
      -- 8XY6: shift right, VF := VX & 1
      let X := xNibble s
      let VX := s.V X
      let V1 := update s.V 15 (VX % 2)
      .ok { s with V := update V1 X (V1 X / 2), pc := (s.pc + 2) % 65536 }
    else if l = 7 then
      -- 8XY7: VX := VY - VX (wrapping u8 subtraction)
      let X := xNibble s
      let VX := s.V X
      let VY := s.V (yNibble s)
      let V1 := update s.V 15 (if VY > VX then 1 else 0)
      .ok { s with V := update V1 X ((VY + 256 - VX % 256) % 256),
                   pc := (s.pc + 2) % 65536 }
    else if l = 0xE then
      -- 8XYE: VF := VX & 0x80 (the raw masked bit, 0 or 128), then a
      -- wrapping left shift; the source does not advance pc here
      let X := xNibble s
      let VX := s.V X
      let V1 := update s.V 15 (VX / 128 % 2 * 128)
      .ok { s with V := update V1 X (V1 X * 2 % 256) }
    else .ok s
  else if c = 9 then
    -- 9XY0: skip if VX != VY
    let VX := s.V (xNibble s)
    let VY := s.V (yNibble s)
    if VX ≠ VY then .ok { s with pc := (s.pc + 4) % 65536 }
    else .ok { s with pc := (s.pc + 2) % 65536 }
  else if c = 0xA then
    .ok { s with I := op % 4096, pc := (s.pc + 2) % 65536 }
  else if c = 0xB then
    .ok { s with pc := (op % 4096 + s.V 0) % 65536 }
  else if c = 0xC then
    -- CXNN: VX := random byte & NN
    .ok { s with V := update s.V (xNibble s) (Nat.land rand (op % 256)),
                 pc := (s.pc + 2) % 65536 }
  else if c = 0xD then
    match draw_sprite s with
    | .error e => .error e
    | .ok s1 => .ok { s1 with pc := (s1.pc + 2) % 65536 }
  else if c = 0xE then
    let l := op % 256
    if l = 0x9E then
      match readArr 16 s.keypad (s.V (xNibble s)) with
      | .error e => .error e
      | .ok k =>
        if k ≠ 0 then .ok { s with pc := (s.pc + 4) % 65536 }
        else .ok { s with pc := (s.pc + 2) % 65536 }
    else if l = 0xA1 then
      match readArr 16 s.keypad (s.V (xNibble s)) with
      | .error e => .error e
      | .ok k =>
        if k = 0 then .ok { s with pc := (s.pc + 4) % 65536 }
        else .ok { s with pc := (s.pc + 2) % 65536 }
    else .ok s
  else if c = 0xF then
    let l := op % 256
    if l = 0x07 then
      .ok { s with V := update s.V (xNibble s) s.delay_timer, pc := (s.pc + 2) % 65536 }
    else if l = 0x0A then
      -- FX0A: scan the whole keypad; the scan does not break, pc only
      -- advances when some key was pressed
      let (V1, pressed) := fx0aScan s.keypad (xNibble s) 16 (s.V, false)
      if pressed then .ok { s with V := V1, pc := (s.pc + 2) % 65536 }
      else .ok { s with V := V1 }
    else if l = 0x15 then
      .ok { s with delay_timer := s.V (xNibble s), pc := (s.pc + 2) % 65536 }
    else if l = 0x18 then
      .ok { s with sound_timer := s.V (xNibble s), pc := (s.pc + 2) % 65536 }
    else if l = 0x1E then
      -- FX1E: VF := (I + VX > 0xFFF), I += VX, with u16 arithmetic
      let VX := s.V (xNibble s)
      let V1 := update s.V 15 (if (s.I + VX) % 65536 > 0xFFF then 1 else 0)
      .ok { s with V := V1, I := (s.I + VX) % 65536, pc := (s.pc + 2) % 65536 }
    else if l = 0x29 then
      .ok { s with I := s.V (xNibble s) * 5 % 65536, pc := (s.pc + 2) % 65536 }
    else if l = 0x33 then
      -- FX33: BCD of VX at I, I+1, I+2 (written ones, tens, hundreds)
      let VX := s.V (xNibble s)
      match writeArr 4096 s.memory ((s.I + 2) % 65536) (VX % 10) with
      | .error e => .error e
      | .ok m1 =>
        match writeArr 4096 m1 ((s.I + 1) % 65536) (VX / 10 % 10) with
        | .error e => .error e
        | .ok m2 =>
          match writeArr 4096 m2 s.I (VX / 10 / 10 % 10) with
          | .error e => .error e
          | .ok m3 => .ok { s with memory := m3, pc := (s.pc + 2) % 65536 }
    else if l = 0x55 then
      let X := xNibble s
      match fx55Loop s.V (s.I % 256) (X + 1) s.memory with
      | .error e => .error e
      | .ok m => .ok { s with memory := m, I := (s.I + (X + 1)) % 65536,
                              pc := (s.pc + 2) % 65536 }
    else if l = 0x65 then
      let X := xNibble s
      match fx65Loop s.memory (s.I % 256) (X + 1) s.V with
      | .error e => .error e
      | .ok V1 => .ok { s with V := V1, I := (s.I + (X + 1)) % 65536,
                               pc := (s.pc + 2) % 65536 }
    else .ok s
  else .ok s

/-- `VirtualMachine::run_cycle`: fetch the opcode, dispatch, then tick
the timers. -/
def run_cycle (rand : Nat) (s : VirtualMachine) : Except Crash VirtualMachine :=
  match fetch_opcode s with
  | .error e => .error e
  | .ok op =>
    match execOpcode rand { s with opcode := op } with
    | .error e => .error e
    | .ok s1 => .ok (tickTimers s1)

/-- `k` consecutive `run_cycle` calls with a fixed random byte. -/
def runCycles (rand : Nat) : Nat → VirtualMachine → Except Crash VirtualMachine
  | 0, s => .ok s
  | k + 1, s =>
    match run_cycle rand s with
    | .error e => .error e
    | .ok s1 => runCycles rand k s1

/-- Cartridge whose data is the given byte list (padded with zeroes, as
`Cartridge::new` zero-fills its buffer) and whose size is its length. -/
def cartOf (l : List Nat) : Cartridge :=
  { data := fun i => l.getD i 0, size := l.length }

/-- Boot sequence of `main.rs`: construct the machine, load the ROM,
then run `k` cycles. -/
def runProg (l : List Nat) (k : Nat) : Except Crash VirtualMachine :=
  match load_rom VirtualMachine.new (cartOf l) with
  | .error e => .error e
  | .ok s => runCycles 0 k s

/-- Program counter of a non-crashed outcome. -/
def pcAt (e : Except Crash VirtualMachine) : Option Nat :=
  match e with
  | .ok t => some t.pc
  | .error _ => none

/-- Stack pointer of a non-crashed outcome. -/
def spAt (e : Except Crash VirtualMachine) : Option Nat :=
  match e with
  | .ok t => some t.sp
  | .error _ => none

/-- Register `V[x]` of a non-crashed outcome. -/
def vAt (x : Nat) (e : Except Crash VirtualMachine) : Option Nat :=
  match e with
  | .ok t => some (t.V x)
  | .error _ => none

/-- Memory byte `j` of a non-crashed outcome. -/
def memAt (j : Nat) (e : Except Crash VirtualMachine) : Option Nat :=
  match e with
  | .ok t => some (t.memory j)
  | .error _ => none

/-- Pixel `(x, y)` (stored as `graphics[y][x]`) of a non-crashed outcome. -/
def gfxAt (y x : Nat) (e : Except Crash VirtualMachine) : Option Nat :=
  match e with
  | .ok t => some (t.graphics y x)
  | .error _ => none

/-- Sound timer of a non-crashed outcome. -/
def soundAt (e : Except Crash VirtualMachine) : Option Nat :=
  match e with
  | .ok t => some t.sound_timer
  | .error _ => none

/-- Dirty flag of a non-crashed outcome. -/
def dirtyAt (e : Except Crash VirtualMachine) : Option Bool :=
  match e with
  | .ok t => some t.draw_to_screen
  | .error _ => none

/-- Whether the outcome is a Rust abort. -/
def crashed (e : Except Crash VirtualMachine) : Bool :=
  match e with
  | .ok _ => false
  | .error _ => true

/-- The set of opcode values on which the nested dispatch of
`run_cycle` reaches a default (`op @ _` / `op =>`) arm, read off the
match expressions of the source: class 0 with a low nibble other than
`0x0`/`0xE`, class 8 with a low nibble other than `0x0..0x7`/`0xE`,
class 0xE with a low byte other than `0x9E`/`0xA1`, and class 0xF with
a low byte other than the nine handled ones.  Classes 1-7 and 9-0xD
always match a rule. -/
def isUnknownOpcode (op : Nat) : Bool :=
  let c := op / 4096
  if c = 0 then
    decide (¬(op % 16 = 0 ∨ op % 16 = 0xE))
  else if c = 8 then
    decide (¬(op % 16 = 0 ∨ op % 16 = 1 ∨ op % 16 = 2 ∨ op % 16 = 3 ∨
              op % 16 = 4 ∨ op % 16 = 5 ∨ op % 16 = 6 ∨ op % 16 = 7 ∨
              op % 16 = 0xE))
  else if c = 0xE then
    decide (¬(op % 256 = 0x9E ∨ op % 256 = 0xA1))
  else if c = 0xF then
    decide (¬(op % 256 = 0x07 ∨ op % 256 = 0x0A ∨ op % 256 = 0x15 ∨
              op % 256 = 0x18 ∨ op % 256 = 0x1E ∨ op % 256 = 0x29 ∨
              op % 256 = 0x33 ∨ op % 256 = 0x55 ∨ op % 256 = 0x65))
  else false

/-- Memory contents after booting with the program
`60 01 A0 00 D0 01` (`set V0 := 1; I := 0; draw at (VX, VY) = (V0, V0)
with n = 1`): the six program bytes at `[512, 518)` over the fontset. -/
def drawInputMemory : Nat → Nat := fun j =>
  if j = 512 then 0x60 else if j = 513 then 1 else
  if j = 514 then 0xA0 else if j = 515 then 0 else
  if j = 516 then 0xD0 else if j = 517 then 1 else
  loadFont 80 (fun _ => 0) j

/-- The machine state reached from boot after the first two cycles of
that program, spelled out field by field: `V0 = 1`, `I = 0`,
`PC = 0x204`, about to execute `D001`.  The sprite row is
`memory[0] = 0xF0` (the fontset glyph for 0). -/
def drawInput : VirtualMachine :=
  { opcode := 0xA000, stack := fun _ => 0, sp := 0, memory := drawInputMemory,
    V := fun j => if j = 0 then 1 else 0, I := 0, pc := 0x204,
    graphics := fun _ _ => 0, draw_to_screen := false,
    keypad := fun _ => 0, delay_timer := 0, sound_timer := 0 }

/-- Fresh machine about to execute `F20A` (wait for key, X = 2) with
keys 3 and 7 held down. -/
def fx0aInput : VirtualMachine :=
  { VirtualMachine.new with
    memory := update (update VirtualMachine.new.memory 512 0xF2) 513 0x0A,
    keypad := fun i => if i = 3 ∨ i = 7 then 1 else 0 }

/-- Fresh machine about to execute the unknown opcode `0xFAFF`. -/
def unknownInput : VirtualMachine :=
  { VirtualMachine.new with
    memory := update (update VirtualMachine.new.memory 512 0xFA) 513 0xFF,
    delay_timer := 5, sound_timer := 3 }

/-- Fresh machine about to execute `F018` (sound timer := V0) with
`V0 = 1`. -/
def soundInput : VirtualMachine :=
  { VirtualMachine.new with
    memory := update (update VirtualMachine.new.memory 512 0xF0) 513 0x18,
    V := update VirtualMachine.new.V 0 1 }

/-- Fresh machine about to execute `0x0140`: high nibble 0, low nibble
0, but not the canonical `00E0`. -/
def clearAliasInput : VirtualMachine :=
  { VirtualMachine.new with
    memory := update (update VirtualMachine.new.memory 512 0x01) 513 0x40,
    graphics := fun _ _ => 1 }

/-- Machine about to execute `0x013E`: high nibble 0, low nibble 0xE,
but not the canonical `00EE`; one return address (0x44) is on the
stack below the pointer. -/
def returnAliasInput : VirtualMachine :=
  { VirtualMachine.new with
    memory := update (update VirtualMachine.new.memory 512 0x01) 513 0x3E,
    sp := 2, stack := fun i => if i = 1 then 0x44 else 0 }

/-- C1: refutation by evaluation.  Loading the program
`set V0 := 0xFF; set V1 := 0x01; add V1 to V0` (bytes
`60 FF 61 01 80 14`) and running three cycles leaves `V0 = 0`
(the 8-bit wraparound of 0x100) but `VF = 0`, although
`0xFF + 0x01 = 0x100 > 255` — the source computes `VX + VY` at `u8`
width, so the widened `sum` can never exceed 255 and the carry flag is
never set, contradicting the claim (and the source's own comment
"An overflow flag is set if VX + VY > 255"). -/
theorem c1_add_carry_flag_never_set :
    vAt 0 (runProg [0x60, 0xFF, 0x61, 0x01, 0x80, 0x14] 3) = some 0 ∧
    vAt 15 (runProg [0x60, 0xFF, 0x61, 0x01, 0x80, 0x14] 3) = some 0 ∧
    pcAt (runProg [0x60, 0xFF, 0x61, 0x01, 0x80, 0x14] 3) = some 0x206 :=
  ⟨rfl, rfl, rfl⟩

/-- C2: refutation by evaluation.  From the freshly booted machine
(PC = 0x200), executing `0x2208` (call 0x208) and then, at 0x208,
`0x00EE` (return) leaves PC = 2, not 0x202: the call pushes only
`pc as u8 = 0x200 % 256 = 0` onto the byte-wide stack, so the return
restores `0 + 2`.  The stack pointer does come back to 0. -/
theorem c2_call_return_truncates_pc :
    pcAt (runProg [0x22, 0x08, 0, 0, 0, 0, 0, 0, 0x00, 0xEE] 2) = some 2 ∧
    spAt (runProg [0x22, 0x08, 0, 0, 0, 0, 0, 0, 0x00, 0xEE] 2) = some 0 :=
  ⟨rfl, rfl⟩

/-- C3: refutation by evaluation.  `drawInput` is the state reached
from boot after `set V0 := 1; I := 0`, with `D001` fetched next and
sprite row `memory[0] = 0xF0`.  The claim places the drawn pixels at
base `(VX, VY) = (1, 1)`, so pixel `(1, 1)` should flip to 1 and pixel
`(0, 0)` should stay 0.  Instead the source re-indexes the register
file with the fetched values (`self.V[x as usize]` where `x` already
holds VX), giving base `(V[1], V[1]) = (0, 0)`: pixel `(0, 0)` becomes
1 and `(1, 1)` stays 0.  The dirty flag is set either way. -/
theorem c3_draw_uses_registers_twice :
    gfxAt 0 0 (run_cycle 0 drawInput) = some 1 ∧
    gfxAt 1 1 (run_cycle 0 drawInput) = some 0 ∧
    dirtyAt (run_cycle 0 drawInput) = some true :=
  ⟨rfl, rfl, rfl⟩

/-- C4: refutation by evaluation.  `run_cycle` has no error channel at
all (it returns unit in the source); both stack misuses abort.
Returning (`00EE`) on the fresh machine with `sp = 0` wraps the `u16`
stack pointer to 65535 and aborts indexing the 16-slot stack; a
seventeenth nested call (reaching `sp = 16`) aborts writing
`stack[16]`.  Neither produces a `StackUnderflow`/`StackOverflow`
value for the caller. -/
theorem c4_stack_misuse_aborts :
    runProg [0x00, 0xEE] 1 = .error .indexOutOfBounds ∧
    runProg [0x22, 0x02, 0x22, 0x04, 0x22, 0x06, 0x22, 0x08,
             0x22, 0x0A, 0x22, 0x0C, 0x22, 0x0E, 0x22, 0x10,
             0x22, 0x12, 0x22, 0x14, 0x22, 0x16, 0x22, 0x18,
             0x22, 0x1A, 0x22, 0x1C, 0x22, 0x1E, 0x22, 0x20,
             0x22, 0x22] 17 = .error .indexOutOfBounds :=
  ⟨rfl, rfl⟩

/-- C5: counterexample.  Fetching the unknown opcode `0xFAFF` (class
0xF, low byte matching no rule) makes `run_cycle` return normally —
nothing is signalled to the caller, the source only prints to stderr —
while PC indeed stays at 0x200.  The claim that an `UnknownOpcode`
error carrying the value reaches the caller is false. -/
theorem c5_unknown_opcode_not_signalled :
    crashed (runProg [0xFA, 0xFF] 1) = false ∧
    pcAt (runProg [0xFA, 0xFF] 1) = some 0x200 :=
  ⟨rfl, rfl⟩

/-- C6: refutation by evaluation.  Program `set V0 := 0x80; shift V0
left` (bytes `60 80 80 0E`).  After the shift opcode, `VF = 128` — the
source stores the raw masked bit `VX & 0x80`, not the value 0 or 1 —
and PC is still 0x202: the 8XYE arm never advances the program
counter.  (`V0` itself is correctly `0x80 << 1 = 0` masked to 8
bits.) -/
theorem c6_shl_flag_raw_and_pc_stuck :
    vAt 15 (runProg [0x60, 0x80, 0x80, 0x0E] 2) = some 128 ∧
    pcAt (runProg [0x60, 0x80, 0x80, 0x0E] 2) = some 0x202 ∧
    vAt 0 (runProg [0x60, 0x80, 0x80, 0x0E] 2) = some 0 :=
  ⟨rfl, rfl, rfl⟩

/-- C7: counterexample.  Program `set V0 := 1; set sound_timer := V0`
(bytes `60 01 F0 18`).  Immediately after the `F018` step the sound
timer is already 0, not 1: the timer block at the end of the same
`run_cycle` call decrements the just-stored value. -/
theorem c7_timer_ticks_in_setting_step :
    soundAt (runProg [0x60, 0x01, 0xF0, 0x18] 2) = some 0 :=
  rfl

/-- C8: counterexample.  On the fresh machine `I = 0`, so the one-step
program `F0 55` (register dump of `V0`) writes `V[0] = 0` over
`memory[0]`, which held the fontset byte `0xF0`: an opcode does mutate
the glyph region `[0, 80)`. -/
theorem c8_font_region_mutable :
    memAt 0 (runProg [0xF0, 0x55] 1) = some 0 ∧
    memAt 0 (.ok VirtualMachine.new) = some 0xF0 :=
  ⟨rfl, rfl⟩

/-- Reading an updated array at the updated index gives the new value. -/
theorem update_apply_same (f : Nat → Nat) (i v : Nat) : update f i v i = v := by
  simp [update]

/-- Reading an updated array elsewhere gives the old value. -/
theorem update_apply_ne (f : Nat → Nat) (i v j : Nat) (h : j ≠ i) :
    update f i v j = f j := by
  simp [update, h]

/-- The FX0A scan only ever writes register `X`. -/
theorem fx0aScan_fst_ne (kp : Nat → Nat) (X : Nat) (k : Nat)
    (acc : (Nat → Nat) × Bool) (j : Nat) (hj : j ≠ X) :
    (fx0aScan kp X k acc).1 j = acc.1 j := by
  induction k with
  | zero => rfl
  | succ k ih =>
    simp only [fx0aScan]
    rcases hsc : fx0aScan kp X k acc with ⟨V1, p1⟩
    rw [hsc] at ih
    by_cases hk : kp k = 0
    · simpa [hk] using ih
    · simpa [hk, update_apply_ne _ _ _ _ hj] using ih

/-- If `m` is the largest pressed key below `k`, the FX0A scan over the
first `k` keys stores `m` into register `X` and reports a press: each
pressed key overwrites the previous write, so the last (largest) one
wins. -/
theorem fx0aScan_last (kp : Nat → Nat) (X : Nat) (m : Nat) :
    ∀ (k : Nat) (acc : (Nat → Nat) × Bool), m < k → kp m ≠ 0 →
      (∀ j, j < k → kp j ≠ 0 → j ≤ m) →
      fx0aScan kp X k acc = (update acc.1 X m, true) := by
  intro k
  induction k with
  | zero => intro acc h; omega
  | succ k ih =>
    intro acc hm hp hmax
    simp only [fx0aScan]
    rcases hsc : fx0aScan kp X k acc with ⟨V1, p1⟩
    by_cases hk : kp k = 0
    · have hmk : m ≠ k := fun e => hp (e ▸ hk)
      have h1 := ih acc (by omega) hp (fun j hj hpj => hmax j (by omega) hpj)
      rw [hsc] at h1
      simpa [hk] using h1
    · have hmk : m = k := le_antisymm (by omega) (hmax k (by omega) hk)
      subst hmk
      simp [hk]
      funext j
      by_cases hj : j = X
      · subst hj; simp [update]
      · rw [update_apply_ne _ _ _ _ hj, update_apply_ne _ _ _ _ hj]
        have h2 := fx0aScan_fst_ne kp X m acc j hj
        rw [hsc] at h2
        exact h2

/-- Below index `k`, the fontset loader has written the fontset byte. -/
theorem loadFont_at : ∀ (k : Nat) (m0 : Nat → Nat) (j : Nat), j < k →
    loadFont k m0 j = FONTSET.getD j 0 := by
  intro k
  induction k with
  | zero => intro m0 j h; omega
  | succ k ih =>
    intro m0 j h
    by_cases hj : j = k
    · subst hj; simp [loadFont, update]
    · simp only [loadFont]
      rw [update_apply_ne _ _ _ _ hj]
      exact ih m0 j (by omega)

/-- A ROM load of at most 3584 bytes succeeds and only writes at or
above address 512. -/
theorem loadRomLoop_preserves (data : Nat → Nat) :
    ∀ (k : Nat) (m0 : Nat → Nat), k ≤ 3584 →
      ∃ m1, loadRomLoop data k m0 = .ok m1 ∧ ∀ j, j < 512 → m1 j = m0 j := by
  intro k
  induction k with
  | zero => intro m0 h; exact ⟨m0, rfl, fun j hj => rfl⟩
  | succ k ih =>
    intro m0 h
    obtain ⟨m1, hok, hpres⟩ := ih m0 (by omega)
    refine ⟨update m1 ((k + 512) % 65536) (data k), ?_, ?_⟩
    · simp only [loadRomLoop]
      rw [hok]
      dsimp only [readArr, writeArr]
      rw [if_pos (show k < 3584 by omega)]
      dsimp only
      rw [if_pos (show (k + 512) % 65536 < 4096 by omega)]
    · intro j hj
      rw [update_apply_ne]
      · exact hpres j hj
      · omega

/-- C9: during FX0A (wait for keypress into VX), if key `m` is pressed
and no higher-numbered key is pressed, the value stored into VX is `m`:
the scan over keys 0..15 does not stop at the first pressed key and
later writes overwrite earlier ones, so with several keys pressed the
highest-numbered one wins, and PC advances by 2. -/
theorem c9_fx0a_highest_key (r : Nat) (s : VirtualMachine) (X m : Nat)
    (hX : X < 16)
    (hf : fetch_opcode s = .ok ((0xF0 + X) * 256 + 0x0A))
    (hm : m < 16) (hp : s.keypad m ≠ 0)
    (hmax : ∀ j, j < 16 → s.keypad j ≠ 0 → j ≤ m) :
    vAt X (run_cycle r s) = some m ∧
    pcAt (run_cycle r s) = some ((s.pc + 2) % 65536) := by
  have h1 : ((0xF0 + X) * 256 + 0x0A) / 4096 = 15 := by omega
  have h2 : ((0xF0 + X) * 256 + 0x0A) % 256 = 0x0A := by omega
  have h3 : ((0xF0 + X) * 256 + 0x0A) / 256 % 16 = X := by omega
  have hscan := fx0aScan_last s.keypad X m 16 (s.V, false) hm hp hmax
  have harm : execOpcode r { s with opcode := (0xF0 + X) * 256 + 0x0A } =
      .ok { s with opcode := (0xF0 + X) * 256 + 0x0A,
                   V := update s.V X m, pc := (s.pc + 2) % 65536 } := by
    unfold execOpcode
    dsimp only [xNibble]
    rw [h1, h2, h3]
    rw [if_neg (by decide : ¬(15:Nat) = 0), if_neg (by decide : ¬(15:Nat) = 1),
        if_neg (by decide : ¬(15:Nat) = 2), if_neg (by decide : ¬(15:Nat) = 3),
        if_neg (by decide : ¬(15:Nat) = 4), if_neg (by decide : ¬(15:Nat) = 5),
        if_neg (by decide : ¬(15:Nat) = 6), if_neg (by decide : ¬(15:Nat) = 7),
        if_neg (by decide : ¬(15:Nat) = 8), if_neg (by decide : ¬(15:Nat) = 9),
        if_neg (by decide : ¬(15:Nat) = 10), if_neg (by decide : ¬(15:Nat) = 11),
        if_neg (by decide : ¬(15:Nat) = 12), if_neg (by decide : ¬(15:Nat) = 13),
        if_neg (by decide : ¬(15:Nat) = 14), if_pos (rfl : (15:Nat) = 15)]
    rw [if_neg (by decide : ¬(10:Nat) = 7), if_pos (rfl : (10:Nat) = 10)]
    rw [hscan]
    rfl
  unfold run_cycle
  rw [hf]
  dsimp only
  rw [harm]
  dsimp only [vAt, pcAt, tickTimers]
  rw [update_apply_same]
  exact ⟨rfl, rfl⟩

/-- C9 witness: on the fresh machine with `F20A` fetched and keys 3
and 7 pressed, `V2` receives 7 and PC moves to 0x202. -/
theorem c9_fx0a_highest_key_witness :
    vAt 2 (run_cycle 0 fx0aInput) = some 7 ∧
    pcAt (run_cycle 0 fx0aInput) = some 514 :=
  c9_fx0a_highest_key 0 fx0aInput 2 7 (by decide) rfl (by decide) (by decide)
    (by decide)

/-- C10: the 0-class dispatch looks only at the low nibble of the
opcode.  Every fetched opcode with high nibble 0 and low nibble 0 runs
the clear-screen handler (screen zeroed, dirty flag set, PC += 2), and
every fetched opcode with high nibble 0 and low nibble 0xE runs the
subroutine-return handler (stack pointer decremented, PC set to the
popped byte plus 2); `0x00E0`/`0x00EE` are not special-cased. -/
theorem c10_low_nibble_dispatch (r : Nat) (s : VirtualMachine) (op : Nat)
    (hop : op < 4096) (hf : fetch_opcode s = .ok op) :
    (op % 16 = 0 →
      run_cycle r s = .ok (tickTimers
        { s with opcode := op, graphics := fun _ _ => 0,
                 draw_to_screen := true, pc := (s.pc + 2) % 65536 })) ∧
    (op % 16 = 0xE → 1 ≤ s.sp → s.sp ≤ 16 →
      run_cycle r s = .ok (tickTimers
        { s with opcode := op, sp := s.sp - 1,
                 pc := (s.stack (s.sp - 1) + 2) % 65536 })) := by
  have hc : op / 4096 = 0 := by omega
  constructor
  · intro h0
    have main : execOpcode r { s with opcode := op } = .ok
        { s with opcode := op, graphics := fun _ _ => 0,
                 draw_to_screen := true, pc := (s.pc + 2) % 65536 } := by
      unfold execOpcode
      dsimp only
      rw [hc, h0]
      rw [if_pos (rfl : (0:Nat) = 0), if_pos (rfl : (0:Nat) = 0)]
    unfold run_cycle
    rw [hf]
    dsimp only
    rw [main]
  · intro hE hsp1 hsp2
    have hsub : (s.sp + 65535) % 65536 = s.sp - 1 := by omega
    have main : execOpcode r { s with opcode := op } = .ok
        { s with opcode := op, sp := s.sp - 1,
                 pc := (s.stack (s.sp - 1) + 2) % 65536 } := by
      unfold execOpcode
      dsimp only [readArr]
      rw [hc, hE]
      rw [if_pos (rfl : (0:Nat) = 0), if_neg (by decide : ¬(14:Nat) = 0),
          if_pos (rfl : (14:Nat) = 14)]
      rw [hsub]
      rw [if_pos (show s.sp - 1 < 16 by omega)]
    unfold run_cycle
    rw [hf]
    dsimp only
    rw [main]

/-- C10 witness: `0x0140` clears the screen of a machine whose pixels
are all lit, and `0x013E` (with `sp = 2` and `stack[1] = 0x44`) returns
to 0x46, exactly as `00E0`/`00EE` would. -/
theorem c10_low_nibble_dispatch_witness :
    run_cycle 0 clearAliasInput = .ok (tickTimers
      { clearAliasInput with
          opcode := 0x0140, graphics := fun _ _ => 0,
          draw_to_screen := true, pc := (clearAliasInput.pc + 2) % 65536 }) ∧
    run_cycle 0 returnAliasInput = .ok (tickTimers
      { returnAliasInput with
          opcode := 0x013E, sp := returnAliasInput.sp - 1,
          pc := (returnAliasInput.stack (returnAliasInput.sp - 1) + 2) % 65536 }) :=
  ⟨(c10_low_nibble_dispatch 0 clearAliasInput 0x0140 (by decide) rfl).1 (by decide),
   (c10_low_nibble_dispatch 0 returnAliasInput 0x013E (by decide) rfl).2
     (by decide) (by decide) (by decide)⟩

/-- C5 amended: a fetched opcode matching no dispatch rule leaves the
machine untouched apart from the recorded opcode and the end-of-cycle
timer tick; in particular PC is unchanged.  `run_cycle` returns
normally — the condition is only printed to stderr in the source, no
`UnknownOpcode` (or any other) value reaches the caller. -/
theorem c5_unknown_opcode_silently_ignored (r : Nat) (s : VirtualMachine) (op : Nat)
    (hf : fetch_opcode s = .ok op)
    (hU : isUnknownOpcode op = true) :
    run_cycle r s = .ok (tickTimers { s with opcode := op }) := by
  have main : execOpcode r { s with opcode := op } = .ok { s with opcode := op } := by
    unfold isUnknownOpcode at hU
    dsimp only at hU
    unfold execOpcode
    dsimp only
    by_cases hc0 : op / 4096 = 0
    · rw [if_pos hc0] at hU
      rw [decide_eq_true_eq] at hU
      push_neg at hU
      rw [if_pos hc0, if_neg hU.1, if_neg hU.2]
    · rw [if_neg hc0] at hU
      rw [if_neg hc0]
      by_cases hc1 : op / 4096 = 1
      · rw [hc1] at hU; simp at hU
      · rw [if_neg hc1]
        by_cases hc2 : op / 4096 = 2
        · rw [hc2] at hU; simp at hU
        · rw [if_neg hc2]
          by_cases hc3 : op / 4096 = 3
          · rw [hc3] at hU; simp at hU
          · rw [if_neg hc3]
            by_cases hc4 : op / 4096 = 4
            · rw [hc4] at hU; simp at hU
            · rw [if_neg hc4]
              by_cases hc5 : op / 4096 = 5
              · rw [hc5] at hU; simp at hU
              · rw [if_neg hc5]
                by_cases hc6 : op / 4096 = 6
                · rw [hc6] at hU; simp at hU
                · rw [if_neg hc6]
                  by_cases hc7 : op / 4096 = 7
                  · rw [hc7] at hU; simp at hU
                  · rw [if_neg hc7]
                    by_cases hc8 : op / 4096 = 8
                    · rw [if_pos hc8] at hU
                      rw [decide_eq_true_eq] at hU
                      push_neg at hU
                      obtain ⟨u0, u1, u2, u3, u4, u5, u6, u7, uE⟩ := hU
                      rw [if_pos hc8, if_neg u0, if_neg u1, if_neg u2, if_neg u3,
                          if_neg u4, if_neg u5, if_neg u6, if_neg u7, if_neg uE]
                    · rw [if_neg hc8] at hU
                      rw [if_neg hc8]
                      by_cases hc9 : op / 4096 = 9
                      · rw [hc9] at hU; simp at hU
                      · rw [if_neg hc9]
                        by_cases hcA : op / 4096 = 10
                        · rw [hcA] at hU; simp at hU
                        · rw [if_neg hcA]
                          by_cases hcB : op / 4096 = 11
                          · rw [hcB] at hU; simp at hU
                          · rw [if_neg hcB]
                            by_cases hcC : op / 4096 = 12
                            · rw [hcC] at hU; simp at hU
                            · rw [if_neg hcC]
                              by_cases hcD : op / 4096 = 13
                              · rw [hcD] at hU; simp at hU
                              · rw [if_neg hcD]
                                by_cases hcE : op / 4096 = 14
                                · rw [if_pos hcE] at hU
                                  rw [decide_eq_true_eq] at hU
                                  push_neg at hU
                                  rw [if_pos hcE, if_neg hU.1, if_neg hU.2]
                                · rw [if_neg hcE] at hU
                                  rw [if_neg hcE]
                                  by_cases hcF : op / 4096 = 15
                                  · rw [if_pos hcF] at hU
                                    rw [decide_eq_true_eq] at hU
                                    push_neg at hU
                                    obtain ⟨w1, w2, w3, w4, w5, w6, w7, w8, w9⟩ := hU
                                    rw [if_pos hcF, if_neg w1, if_neg w2, if_neg w3,
                                        if_neg w4, if_neg w5, if_neg w6, if_neg w7,
                                        if_neg w8, if_neg w9]
                                  · rw [if_neg hcF] at hU
                                    simp at hU
  unfold run_cycle
  rw [hf]
  dsimp only
  rw [main]

/-- C5 amended witness: the unknown opcode `0xFAFF` on a machine with
running timers yields a normal return with nothing but the opcode
register and the timers changed. -/
theorem c5_unknown_opcode_silently_ignored_witness :
    run_cycle 0 unknownInput =
      .ok (tickTimers { unknownInput with opcode := 0xFAFF }) :=
  c5_unknown_opcode_silently_ignored 0 unknownInput 0xFAFF rfl (by decide)

/-- C7 amended: executing FX18 with `VX = 1` sets the sound timer to 1
and the trailing timer block of the same `run_cycle` call immediately
decrements it, so after that very step the sound timer is already 0;
and the per-cycle timer block takes each timer to its truncated
predecessor — one less when nonzero, still zero when zero, never
negative. -/
theorem c7_sound_timer_same_step_tick :
    (∀ (r : Nat) (s : VirtualMachine) (X : Nat), X < 16 →
        fetch_opcode s = .ok ((0xF0 + X) * 256 + 0x18) →
        s.V X = 1 →
        soundAt (run_cycle r s) = some 0) ∧
    (∀ u : VirtualMachine,
        (tickTimers u).sound_timer = u.sound_timer - 1 ∧
        (tickTimers u).delay_timer = u.delay_timer - 1) := by
  constructor
  · intro r s X hX hf hV
    have h1 : ((0xF0 + X) * 256 + 0x18) / 4096 = 15 := by omega
    have h2 : ((0xF0 + X) * 256 + 0x18) % 256 = 0x18 := by omega
    have h3 : ((0xF0 + X) * 256 + 0x18) / 256 % 16 = X := by omega
    have main : execOpcode r { s with opcode := (0xF0 + X) * 256 + 0x18 } = .ok
        { s with opcode := (0xF0 + X) * 256 + 0x18,
                 sound_timer := s.V X, pc := (s.pc + 2) % 65536 } := by
      unfold execOpcode
      dsimp only [xNibble]
      rw [h1, h2, h3]
      rw [if_neg (by decide : ¬(15:Nat) = 0), if_neg (by decide : ¬(15:Nat) = 1),
          if_neg (by decide : ¬(15:Nat) = 2), if_neg (by decide : ¬(15:Nat) = 3),
          if_neg (by decide : ¬(15:Nat) = 4), if_neg (by decide : ¬(15:Nat) = 5),
          if_neg (by decide : ¬(15:Nat) = 6), if_neg (by decide : ¬(15:Nat) = 7),
          if_neg (by decide : ¬(15:Nat) = 8), if_neg (by decide : ¬(15:Nat) = 9),
          if_neg (by decide : ¬(15:Nat) = 10), if_neg (by decide : ¬(15:Nat) = 11),
          if_neg (by decide : ¬(15:Nat) = 12), if_neg (by decide : ¬(15:Nat) = 13),
          if_neg (by decide : ¬(15:Nat) = 14), if_pos (rfl : (15:Nat) = 15)]
      rw [if_neg (by decide : ¬(24:Nat) = 7), if_neg (by decide : ¬(24:Nat) = 10),
          if_neg (by decide : ¬(24:Nat) = 21), if_pos (rfl : (24:Nat) = 24)]
    unfold run_cycle
    rw [hf]
    dsimp only
    rw [main]
    dsimp only [soundAt, tickTimers]
    rw [hV]
    decide
  · intro u
    constructor
    · simp only [tickTimers]
      split <;> omega
    · simp only [tickTimers]
      split <;> omega

/-- C7 amended witness: the `F018` step on a machine with `V0 = 1`
ends with sound timer 0; and the timer block on the fresh machine maps
its zero sound timer to `0 - 1 = 0`. -/
theorem c7_sound_timer_same_step_tick_witness :
    soundAt (run_cycle 0 soundInput) = some 0 ∧
    (tickTimers VirtualMachine.new).sound_timer =
      VirtualMachine.new.sound_timer - 1 :=
  ⟨c7_sound_timer_same_step_tick.1 0 soundInput 0 (by decide) rfl (by decide),
   (c7_sound_timer_same_step_tick.2 VirtualMachine.new).1⟩

/-- C8 amended: memory bytes `[0, 80)` equal the fixed glyph table in
a freshly constructed machine after loading any program of at most
3584 bytes (the size bound the `Cartridge` type guarantees); the
region is not invariant under `run_cycle`, since FX55/FX33 with a
low store index overwrite it. -/
theorem c8_font_after_load (cart : Cartridge) (j : Nat)
    (hsz : cart.size ≤ 3584) (hj : j < 80) :
    memAt j (load_rom VirtualMachine.new cart) = some (FONTSET.getD j 0) := by
  obtain ⟨m1, hok, hpres⟩ :=
    loadRomLoop_preserves cart.data cart.size VirtualMachine.new.memory hsz
  unfold load_rom
  rw [hok]
  dsimp only [memAt]
  rw [hpres j (by omega)]
  show some (loadFont 80 (fun _ => 0) j) = some (FONTSET.getD j 0)
  rw [loadFont_at 80 _ j (by omega)]

/-- C8 amended witness: after loading the one-byte program `[0x60]`,
byte 0 still holds the fontset byte `0xF0`. -/
theorem c8_font_after_load_witness :
    (cartOf [0x60]).size ≤ 3584 ∧
    memAt 0 (load_rom VirtualMachine.new (cartOf [0x60])) = some 0xF0 :=
  ⟨by decide, c8_font_after_load (cartOf [0x60]) 0 (by decide) (by decide)⟩
